import Mathlib

/-!
Verification of the clinical RAG engine (backend/rag_engine.py).

This file gives a shallow embedding of the RAG engine: chunk extraction from
the knowledge base, index initialization, retrieval post-processing, prompt
assembly, response-structure repair, and the three-tier generation ladder
of generate_analysis.  External capabilities (the embedding provider, the
FAISS nearest-neighbor search, and the generative model) are modelled as
oracle parameters constrained by their documented interfaces.  Python
dictionaries holding knowledge records are modelled as structures whose
optional fields mirror the dict.get accesses of the source; JSON values
returned by the generative model are modelled by an inductive Json type,
and the Python item/membership operations on them (including the TypeError
cases) are modelled by Option-valued functions.  Similarity scores are
floats in the source; they are modelled by integers here, since the engine
only ever orders, formats, and stores them.
-/

/-! ## String utilities -/

/-- Model of the Python separator.join operation. -/
def joinSep (sep : String) : List String → String
  | [] => ""
  | [x] => x
  | x :: y :: xs => x ++ sep ++ joinSep sep (y :: xs)

/-- Occurrence of a pattern as a contiguous segment of a character list. -/
def occursInB (pat : List Char) : List Char → Bool
  | [] => pat.isPrefixOf []
  | s@(_ :: t) => pat.isPrefixOf s || occursInB pat t

/-- Occurrence of a pattern string inside another string. -/
def strOccurs (s pat : String) : Bool := occursInB pat.data s.data

/-- Model of the Python str.strip method: drop whitespace from both ends. -/
def pyStrip (s : String) : String :=
  String.mk (((s.data.dropWhile Char.isWhitespace).reverse.dropWhile Char.isWhitespace).reverse)

theorem strData_append (a b : String) : (a ++ b).data = a.data ++ b.data := rfl

theorem isPrefixOf_append_self (p r : List Char) : p.isPrefixOf (p ++ r) = true := by
  induction p with
  | nil => simp [List.isPrefixOf]
  | cons a as ih => simp [List.isPrefixOf, ih]

theorem isPrefixOf_extend {p t : List Char} (r : List Char)
    (h : p.isPrefixOf t = true) : p.isPrefixOf (t ++ r) = true := by
  rw [List.isPrefixOf_iff_prefix] at h ⊢
  exact h.trans (t.prefix_append r)

theorem occursInB_of_isPrefixOf {p s : List Char} (h : p.isPrefixOf s = true) :
    occursInB p s = true := by
  cases s with
  | nil => simpa [occursInB] using h
  | cons a t => simp [occursInB, h]

theorem occursInB_self (p : List Char) : occursInB p p = true := by
  have := isPrefixOf_append_self p []
  rw [List.append_nil] at this
  exact occursInB_of_isPrefixOf this

theorem occursInB_cons (p : List Char) (a : Char) (t : List Char)
    (h : occursInB p t = true) : occursInB p (a :: t) = true := by
  simp [occursInB, h]

theorem occursInB_append_left (p l t : List Char) (h : occursInB p t = true) :
    occursInB p (l ++ t) = true := by
  induction l with
  | nil => simpa
  | cons a as ih => exact occursInB_cons _ _ _ ih

theorem occursInB_nil_pat (r : List Char) : occursInB [] r = true := by
  cases r <;> simp [occursInB, List.isPrefixOf]

theorem occursInB_append_right {p t : List Char} (r : List Char)
    (h : occursInB p t = true) : occursInB p (t ++ r) = true := by
  induction t with
  | nil =>
    simp only [occursInB] at h
    cases p with
    | nil => simpa using occursInB_nil_pat r
    | cons x xs => simp [List.isPrefixOf] at h
  | cons a as ih =>
    simp only [occursInB, Bool.or_eq_true] at h
    rcases h with h | h
    · have h2 := isPrefixOf_extend r h
      simp only [List.cons_append] at h2 ⊢
      simp [occursInB, h2]
    · simp only [List.cons_append, occursInB, Bool.or_eq_true]
      exact Or.inr (ih h)

theorem strOccurs_append_right (a b p : String) (h : strOccurs a p = true) :
    strOccurs (a ++ b) p = true := by
  unfold strOccurs at h ⊢
  rw [strData_append]
  exact occursInB_append_right _ h

theorem strOccurs_append_left (a b p : String) (h : strOccurs b p = true) :
    strOccurs (a ++ b) p = true := by
  unfold strOccurs at h ⊢
  rw [strData_append]
  exact occursInB_append_left _ _ _ h

theorem strOccurs_of_mem_joinSep (sep : String) (l : List String) (x : String)
    (hx : x ∈ l) (p : String) (hp : occursInB p.data x.data = true) :
    strOccurs (joinSep sep l) p = true := by
  induction l with
  | nil => simp at hx
  | cons a as ih =>
    rcases List.mem_cons.mp hx with rfl | hmem
    · cases as with
      | nil => simpa [strOccurs, joinSep]
      | cons b bs =>
        show occursInB p.data (joinSep sep (x :: b :: bs)).data = true
        have hj : joinSep sep (x :: b :: bs) = x ++ sep ++ joinSep sep (b :: bs) := rfl
        rw [hj, strData_append, strData_append, List.append_assoc]
        exact occursInB_append_right _ hp
    · cases as with
      | nil => simp at hmem
      | cons b bs =>
        have h2 := ih hmem
        show occursInB p.data (joinSep sep (a :: b :: bs)).data = true
        have hj : joinSep sep (a :: b :: bs) = a ++ sep ++ joinSep sep (b :: bs) := rfl
        rw [hj, strData_append, strData_append]
        exact occursInB_append_left _ _ _ h2

theorem isPrefixOf_cons_ne {a b : Char} {l m : List Char} (h : a ≠ b) :
    ((a :: l).isPrefixOf (b :: m)) = false := by
  simp [List.isPrefixOf, h]

theorem mem_data_append_left {c : Char} (a b : String) (h : c ∈ a.data) :
    c ∈ (a ++ b).data := by
  rw [strData_append]
  exact List.mem_append_left _ h

theorem str_ne_empty_of_mem {s : String} {c : Char} (h : c ∈ s.data) : s ≠ "" := by
  intro he
  subst he
  simp at h

theorem pyStrip_ne_empty {s : String} {c : Char} (hc : c ∈ s.data)
    (hw : c.isWhitespace = false) : pyStrip s ≠ "" := by
  intro he
  have hdata : (((s.data.dropWhile Char.isWhitespace).reverse.dropWhile Char.isWhitespace).reverse) = [] := by
    have := congrArg String.data he
    simpa [pyStrip] using this
  have h1 : c ∈ s.data.dropWhile Char.isWhitespace := by
    have hsplit := List.takeWhile_append_dropWhile (p := Char.isWhitespace) (l := s.data)
    rw [← hsplit] at hc
    rcases List.mem_append.mp hc with h | h
    · exact absurd (List.mem_takeWhile_imp h) (by simp [hw])
    · exact h
  have h2 : c ∈ (s.data.dropWhile Char.isWhitespace).reverse := List.mem_reverse.mpr h1
  have h3 : (s.data.dropWhile Char.isWhitespace).reverse.dropWhile Char.isWhitespace = [] := by
    have := congrArg List.reverse hdata
    simpa using this
  have h4 := (List.dropWhile_eq_nil_iff.mp h3) c h2
  simp [hw] at h4

/-! ## JSON values and the Python dict operations used by the engine -/

/-- JSON values, as produced by json.loads from the generative model. -/
inductive Json where
  | null
  | bool (b : Bool)
  | num (n : Int)
  | str (s : String)
  | arr (elems : List Json)
  | obj (fields : List (String × Json))

/-- Key membership in a JSON object (Python: key in dict). -/
def objMem (fs : List (String × Json)) (k : String) : Bool :=
  fs.any (fun p => p.1 == k)

/-- Lookup in a JSON object (Python: dict[key], which raises KeyError when absent). -/
def objGet (fs : List (String × Json)) (k : String) : Option Json :=
  (fs.find? (fun p => p.1 == k)).map (fun p => p.2)

/-- Assignment in a JSON object (Python: dict[key] = v keeps the position of an
existing key and appends a new key at the end). -/
def objSet : List (String × Json) → String → Json → List (String × Json)
  | [], k, v => [(k, v)]
  | (k0, v0) :: rest, k, v =>
    if k0 == k then (k0, v) :: rest else (k0, v0) :: objSet rest k v

/-- Python membership test key in value, for an arbitrary JSON value.  On a
dict it tests keys, on a list it tests elements, on a string it tests
substrings; on null, booleans and numbers it raises TypeError (none). -/
def pyContains (j : Json) (k : String) : Option Bool :=
  match j with
  | .obj fs => some (objMem fs k)
  | .arr xs => some (xs.any (fun e => match e with | .str s => s == k | _ => false))
  | .str s => some (occursInB k.data s.data)
  | _ => none

/-- Python value[key] for a string key: succeeds on dicts with the key present,
raises (none) otherwise. -/
def pyGetItem (j : Json) (k : String) : Option Json :=
  match j with
  | .obj fs => objGet fs k
  | _ => none

/-- Python value[key] = v for a string key: succeeds on dicts, raises (none)
on every other value. -/
def pySetItem (j : Json) (k : String) (v : Json) : Option Json :=
  match j with
  | .obj fs => some (.obj (objSet fs k v))
  | _ => none

/-! ## Knowledge-base records

The knowledge base is a JSON document; the engine accesses it exclusively
through dict.get with falsy defaults.  Record fields read with a string or
list default are modelled as plain String or List String (a missing key and
an empty value are indistinguishable to the engine there); fields whose
absence the engine can observe are modelled as Option. -/

structure HpiRecord where
  location : List String
  radiation : List String
  quality : List String
  quality_other : String
  duration : String
  severity : Option Nat
  timing : String
  aggravating_factors : List String
  relieving_factors : List String
deriving Inhabited

structure VitalsRecord where
  bp : String
  hr : String
  temp : String
  spo2 : String
  rr : String
deriving Inhabited

structure PERecord where
  general : List String
  vitals : VitalsRecord
  cardiovascular : List String
  respiratory : List String
deriving Inhabited

structure FormDataRec where
  chief_complaint : Option String
  hpi : HpiRecord
  associated_symptoms : List String
  physical_exam : Option PERecord
  doctor_notes : String
deriving Inhabited

structure Scenario where
  id : Option String
  name : String
  description : String
  form_data : FormDataRec
deriving Inhabited

structure DxRecord where
  diagnosis : String
  risk_level : String
  supporting_evidence : List String
  opposing_evidence : List String
  recommended_actions : List String
  rank : Option Int
deriving Inhabited

structure TaskRecord where
  task : String
  category : String
  reason : String
deriving Inhabited

structure TasksRecord where
  immediate_tasks : List TaskRecord
  urgent_tasks : List TaskRecord
  routine_tasks : List TaskRecord
deriving Inhabited

structure IcdCode where
  code : String
  description : String
  type : String
deriving Inhabited

structure ResponseRecord where
  clinical_note : String
  differential_diagnoses : List DxRecord
  tasks : TasksRecord
  icd10_codes : List IcdCode
deriving Inhabited

structure KnowledgeBase where
  scenarios : List Scenario
  api_responses : List (String × ResponseRecord)
deriving Inhabited

structure VitalsP where
  blood_pressure : String
  heart_rate : String
  temperature : String
  oxygen_saturation : String
  respiratory_rate : String
deriving Inhabited

structure PatientContext where
  name : Option String
  age : Option Nat
  gender : Option String
  mrn : Option String
  medical_history : List String
  medications : List String
  allergies : Option (List String)
  vitals : Option VitalsP
deriving Inhabited

/-! ## Chunks and chunk extraction -/

/-- A knowledge chunk.  The source stores chunks as dicts; scenario chunks
carry a scenario_id key, response chunks a response_key key, and a score key
is added only to the copies returned by retrieve. -/
structure Chunk where
  id : String
  type : String
  scenario_id : Option String
  response_key : Option String
  text : String
  metadata : List (String × Json)
  score : Option Int

/-- Rendering of an optional severity number inside an f-string, where a
missing key was defaulted to the empty string. -/
def sevStr (sev : Option Nat) : String :=
  match sev with
  | some n => toString n
  | none => ""

/-- The overview text of a scenario before stripping (source lines 97-102). -/
def overview_text (s : Scenario) : String :=
  "\nClinical Scenario: " ++ s.name ++ "\nDescription: " ++ s.description
    ++ "\nChief Complaint: " ++ s.form_data.chief_complaint.getD ""
    ++ "\nAssociated Symptoms: " ++ joinSep ", " s.form_data.associated_symptoms ++ "\n"

/-- The HPI pattern text of a scenario before stripping (source lines 116-127). -/
def hpi_text (s : Scenario) : String :=
  "\nClinical Pattern - History of Present Illness:\nChief Complaint: "
    ++ s.form_data.chief_complaint.getD ""
    ++ "\nLocation: " ++ joinSep ", " s.form_data.hpi.location
    ++ "\nRadiation: " ++ joinSep ", " s.form_data.hpi.radiation
    ++ "\nQuality: " ++ joinSep ", " s.form_data.hpi.quality ++ " " ++ s.form_data.hpi.quality_other
    ++ "\nDuration: " ++ s.form_data.hpi.duration
    ++ "\nSeverity: " ++ sevStr s.form_data.hpi.severity ++ "/10"
    ++ "\nTiming: " ++ s.form_data.hpi.timing
    ++ "\nAggravating Factors: " ++ joinSep ", " s.form_data.hpi.aggravating_factors
    ++ "\nRelieving Factors: " ++ joinSep ", " s.form_data.hpi.relieving_factors ++ "\n"

/-- The physical-exam pattern text of a scenario before stripping
(source lines 139-145). -/
def pe_text (s : Scenario) (pe : PERecord) : String :=
  "\nPhysical Examination Pattern for " ++ s.form_data.chief_complaint.getD "" ++ ":"
    ++ "\nGeneral: " ++ joinSep ", " pe.general
    ++ "\nVitals: BP " ++ pe.vitals.bp ++ ", HR " ++ pe.vitals.hr
    ++ ", Temp " ++ pe.vitals.temp ++ ", SpO2 " ++ pe.vitals.spo2 ++ "%, RR " ++ pe.vitals.rr
    ++ "\nCardiovascular: " ++ joinSep ", " pe.cardiovascular
    ++ "\nRespiratory: " ++ joinSep ", " pe.respiratory ++ "\n"

/-- The clinical-reasoning text of a scenario before stripping (source lines 156-159). -/
def notes_text (s : Scenario) : String :=
  "\nClinical Reasoning for " ++ s.form_data.chief_complaint.getD "" ++ ":\n"
    ++ s.form_data.doctor_notes ++ "\n"

/-- Extraction of chunks from one scenario record
(ClinicalRAG._extract_scenario_chunks). -/
def extract_scenario_chunks (s : Scenario) : List Chunk :=
  let scenario_id := s.id.getD "unknown"
  let cc := s.form_data.chief_complaint.getD ""
  [{ id := "scenario_" ++ scenario_id ++ "_overview"
     type := "scenario_overview"
     scenario_id := some scenario_id
     response_key := none
     text := pyStrip (overview_text s)
     metadata := [("chief_complaint", .str cc),
       ("symptoms", .arr (s.form_data.associated_symptoms.map .str))]
     score := none },
   { id := "scenario_" ++ scenario_id ++ "_hpi"
     type := "hpi_pattern"
     scenario_id := some scenario_id
     response_key := none
     text := pyStrip (hpi_text s)
     metadata := [("chief_complaint", .str cc)]
     score := none }]
  ++ (match s.form_data.physical_exam with
      | none => []
      | some pe =>
        [{ id := "scenario_" ++ scenario_id ++ "_pe"
           type := "physical_exam_pattern"
           scenario_id := some scenario_id
           response_key := none
           text := pyStrip (pe_text s pe)
           metadata := [("chief_complaint", .str cc)]
           score := none }])
  ++ (if s.form_data.doctor_notes ≠ "" then
        [{ id := "scenario_" ++ scenario_id ++ "_notes"
           type := "clinical_reasoning"
           scenario_id := some scenario_id
           response_key := none
           text := pyStrip (notes_text s)
           metadata := [("chief_complaint", .str cc)]
           score := none }]
      else [])

/-- The note preview: the first 500 characters with an ellipsis when the note
is longer than 500 characters (source line 175). -/
def note_preview (note : String) : String :=
  if note.length > 500 then String.mk (note.data.take 500) ++ "..." else note

/-- The text of one differential-diagnosis chunk before stripping
(source lines 186-193). -/
def dx_text (dx : DxRecord) : String :=
  "\nDifferential Diagnosis Pattern:\nDiagnosis: " ++ dx.diagnosis
    ++ "\nRisk Level: " ++ dx.risk_level
    ++ "\nSupporting Evidence: " ++ joinSep ", " dx.supporting_evidence
    ++ "\nOpposing Evidence: " ++ joinSep ", " dx.opposing_evidence
    ++ "\nRecommended Actions: " ++ joinSep ", " dx.recommended_actions ++ "\n"

/-- One differential-diagnosis chunk, built from the position and record
pair produced by enumerate (source lines 185-204). -/
def dx_chunk (response_key : String) (p : Nat × DxRecord) : Chunk :=
  { id := "response_" ++ response_key ++ "_dx_" ++ toString p.1
    type := "differential_diagnosis"
    scenario_id := none
    response_key := some response_key
    text := pyStrip (dx_text p.2)
    metadata := [("diagnosis", .str p.2.diagnosis),
      ("risk_level", .str p.2.risk_level),
      ("rank", .num (p.2.rank.getD (Int.ofNat p.1 + 1)))]
    score := none }

/-- One line of a task chunk (source line 214). -/
def task_line (t : TaskRecord) : String :=
  "- " ++ t.task ++ " (" ++ t.category ++ "): " ++ t.reason

/-- The text of one task chunk before stripping (source lines 216-219). -/
def task_chunk_text (priority : String) (task_list : List TaskRecord) : String :=
  "\nClinical Tasks - " ++ priority ++ " Priority:\n"
    ++ joinSep "\n" (task_list.map task_line) ++ "\n"

/-- The task chunk of one urgency tier, emitted only when the tier is
non-empty (source lines 208-229). -/
def tier_chunks (response_key task_type priority : String)
    (task_list : List TaskRecord) : List Chunk :=
  if !task_list.isEmpty then
    [{ id := "response_" ++ response_key ++ "_" ++ task_type
       type := "task_pattern"
       scenario_id := none
       response_key := some response_key
       text := pyStrip (task_chunk_text priority task_list)
       metadata := [("priority", .str priority),
         ("task_count", .num (Int.ofNat task_list.length))]
       score := none }]
  else []

/-- One line of the ICD-code chunk (source line 236). -/
def icd_line (c : IcdCode) : String :=
  "- " ++ c.code ++ ": " ++ c.description ++ " (" ++ c.type ++ ")\n"

/-- The accumulated ICD text (source lines 234-236). -/
def icd_text (codes : List IcdCode) : String :=
  "ICD-10 Diagnosis Codes:\n" ++ String.join (codes.map icd_line)

/-- JSON rendering of a stored ICD code record, as kept in chunk metadata. -/
def icdCodeJson (c : IcdCode) : Json :=
  .obj [("code", .str c.code), ("description", .str c.description), ("type", .str c.type)]

/-- Extraction of chunks from one canned API response record
(ClinicalRAG._extract_response_chunks). -/
def extract_response_chunks (response_key : String) (r : ResponseRecord) : List Chunk :=
  (if r.clinical_note ≠ "" then
     [{ id := "response_" ++ response_key ++ "_note"
        type := "clinical_note_pattern"
        scenario_id := none
        response_key := some response_key
        text := "Clinical Note Pattern:\n" ++ note_preview r.clinical_note
        metadata := [("full_note", .str r.clinical_note)]
        score := none }]
   else [])
  ++ (r.differential_diagnoses.enum.map (dx_chunk response_key))
  ++ tier_chunks response_key "immediate_tasks" "IMMEDIATE" r.tasks.immediate_tasks
  ++ tier_chunks response_key "urgent_tasks" "URGENT" r.tasks.urgent_tasks
  ++ tier_chunks response_key "routine_tasks" "ROUTINE" r.tasks.routine_tasks
  ++ (if !r.icd10_codes.isEmpty then
       [{ id := "response_" ++ response_key ++ "_icd"
          type := "icd_codes"
          scenario_id := none
          response_key := some response_key
          text := pyStrip (icd_text r.icd10_codes)
          metadata := [("codes", .arr (r.icd10_codes.map icdCodeJson))]
          score := none }]
     else [])

/-- Chunk extraction over the whole knowledge base
(ClinicalRAG._load_knowledge_base, after a successful file read). -/
def load_knowledge_chunks (kb : KnowledgeBase) : List Chunk :=
  (kb.scenarios.map extract_scenario_chunks).flatten
    ++ (kb.api_responses.map (fun p => extract_response_chunks p.1 p.2)).flatten

/-! ## Engine state, index build, and retrieval -/

/-- The mutable state of a ClinicalRAG instance that retrieval reads: the
chunk list, and the presence of the embedding matrix and the FAISS index
(their numeric content never flows into any retrieval decision, only their
presence does, so they are modelled by presence alone). -/
structure EngineState where
  chunks : List Chunk
  embeddings : Option Unit
  index : Option Unit

/-- Python list indexing with a possibly negative index: a negative index
counts from the end, and an out-of-range index raises IndexError (none). -/
def pyListGet {α : Type} (l : List α) (i : Int) : Option α :=
  if 0 ≤ i then l.get? i.toNat
  else if (-i).toNat ≤ l.length then l.get? (l.length - (-i).toNat)
  else none

/-- The copy-and-annotate step of retrieve: chunk = chunks[idx].copy();
chunk[score-key] = score (source lines 342-343). -/
def setScore (c : Chunk) (s : Int) : Chunk := { c with score := some s }

/-- The result loop of retrieve (source lines 339-344): each (score, idx)
pair from the FAISS search is kept when idx < len(chunks) — note that this
comparison admits negative indices — and the chunk at idx is then copied and
annotated.  An IndexError inside the loop aborts it (none). -/
def retrieveLoop (chunks : List Chunk) : List (Int × Int) → Option (List Chunk)
  | [] => some []
  | (score, idx) :: rest =>
    if idx < (chunks.length : Int) then
      match pyListGet chunks idx with
      | none => none
      | some c => (retrieveLoop chunks rest).map (fun rs => setScore c score :: rs)
    else retrieveLoop chunks rest

/-- ClinicalRAG.retrieve.  The query embedding call and the FAISS search are
external: embedOk says whether the embedding call succeeded (an exception is
caught and yields []), and searchOut is the (score, index) list the FAISS
search returned for this query.  Returns the results together with the
engine state after the call. -/
def retrieve (st : EngineState) (query : String) (top_k : Nat) (embedOk : Bool)
    (searchOut : List (Int × Int)) : List Chunk × EngineState :=
  if st.index.isNone || st.embeddings.isNone then ([], st)
  else if !embedOk then ([], st)
  else
    match retrieveLoop st.chunks searchOut with
    | none => ([], st)
    | some results => (results, st)

/-- Score sequence is non-increasing. -/
def scoresNonIncreasing : List Int → Bool
  | [] => true
  | [_] => true
  | a :: b :: t => (b ≤ a) && scoresNonIncreasing (b :: t)

/-- The documented output contract of the FAISS IndexFlat search for one
query over ntotal stored vectors: exactly top_k (score, index) pairs, scores
non-increasing, the first min(top_k, ntotal) indices in range, and the
remaining pairs padded with index -1 when top_k exceeds ntotal. -/
def faissSearchOutput (ntotal top_k : Nat) (out : List (Int × Int)) : Bool :=
  (out.length == top_k)
    && scoresNonIncreasing (out.map (fun p => p.1))
    && (out.take (min top_k ntotal)).all (fun p => (0 ≤ p.2 : Bool) && (p.2 < (ntotal : Int) : Bool))
    && (out.drop (min top_k ntotal)).all (fun p => p.2 == -1)

/-- ClinicalRAG initialization (ClinicalRAG.init calling _load_knowledge_base
then _build_index).  kbRead is the outcome of reading and parsing the
knowledge source: a failure is logged and re-raised, so it propagates out of
the constructor.  faissAvailable models the faiss import; cacheHit models a
successful load of a cached embedding matrix and index; embedOk models the
batched embedding calls of a rebuild.  A failed rebuild leaves embeddings
and index unset. -/
def clinicalRAG_init (kbRead : Except String KnowledgeBase) (faissAvailable : Bool)
    (cacheHit : Bool) (embedOk : Bool) : Except String EngineState :=
  match kbRead with
  | .error e => .error e
  | .ok kb =>
    let chunks := load_knowledge_chunks kb
    if !faissAvailable then .ok ⟨chunks, none, none⟩
    else if cacheHit then .ok ⟨chunks, some (), some ()⟩
    else if embedOk then .ok ⟨chunks, some (), some ()⟩
    else .ok ⟨chunks, none, none⟩

/-! ## Query and prompt assembly -/

/-- The parts list of ClinicalRAG._build_patient_summary (source lines 534-585).
Truthiness of an optional string is modelled by getD-nonemptiness and of an
optional number by getD-nonzeroness, matching Python falsiness of missing
keys, empty strings and zero. -/
def patientSummaryParts (pc : PatientContext) : List String :=
  (if pc.name.getD "" ≠ "" then ["Name: " ++ pc.name.getD ""] else [])
    ++ (if pc.age.getD 0 ≠ 0 then ["Age: " ++ toString (pc.age.getD 0) ++ " years"] else [])
    ++ (if pc.gender.getD "" ≠ "" then ["Gender: " ++ pc.gender.getD ""] else [])
    ++ (if pc.mrn.getD "" ≠ "" then ["MRN: " ++ pc.mrn.getD ""] else [])
    ++ (if !pc.medical_history.isEmpty then
          ["Past Medical History: " ++ joinSep ", " pc.medical_history]
        else ["Past Medical History: None documented"])
    ++ (if !pc.medications.isEmpty then
          ["Current Medications: " ++ joinSep ", " pc.medications]
        else ["Current Medications: None"])
    ++ (if !(pc.allergies.getD []).isEmpty then
          ["⚠️ ALLERGIES: " ++ joinSep ", " (pc.allergies.getD [])]
        else ["Allergies: NKDA (No Known Drug Allergies)"])
    ++ (let v := pc.vitals.getD default
        let vitals_str :=
          (if v.blood_pressure ≠ "" then ["BP " ++ v.blood_pressure] else [])
            ++ (if v.heart_rate ≠ "" then ["HR " ++ v.heart_rate] else [])
            ++ (if v.temperature ≠ "" then ["Temp " ++ v.temperature ++ "°F"] else [])
            ++ (if v.oxygen_saturation ≠ "" then ["SpO2 " ++ v.oxygen_saturation ++ "%"] else [])
            ++ (if v.respiratory_rate ≠ "" then ["RR " ++ v.respiratory_rate] else [])
        if !vitals_str.isEmpty then ["Baseline Vitals: " ++ joinSep ", " vitals_str] else [])

/-- ClinicalRAG._build_patient_summary. -/
def build_patient_summary (pc : PatientContext) : String :=
  joinSep "\n" (patientSummaryParts pc)

/-- The HPI sub-parts of ClinicalRAG._build_form_summary (source lines 595-616). -/
def hpiSummaryParts (hpi : HpiRecord) : List String :=
  (if !hpi.location.isEmpty then ["Location: " ++ joinSep ", " hpi.location] else [])
    ++ (if !hpi.radiation.isEmpty then ["Radiation: " ++ joinSep ", " hpi.radiation] else [])
    ++ (if !hpi.quality.isEmpty then
          ["Quality: " ++ (joinSep ", " hpi.quality
            ++ (if hpi.quality_other ≠ "" then " (" ++ hpi.quality_other ++ ")" else ""))]
        else [])
    ++ (if hpi.duration ≠ "" then ["Duration: " ++ hpi.duration] else [])
    ++ (if hpi.severity.getD 0 ≠ 0 then
          ["Severity: " ++ toString (hpi.severity.getD 0) ++ "/10"] else [])
    ++ (if hpi.timing ≠ "" then ["Timing: " ++ hpi.timing] else [])
    ++ (if !hpi.aggravating_factors.isEmpty then
          ["Aggravating: " ++ joinSep ", " hpi.aggravating_factors] else [])
    ++ (if !hpi.relieving_factors.isEmpty then
          ["Relieving: " ++ joinSep ", " hpi.relieving_factors] else [])

/-- The physical-exam sub-parts of ClinicalRAG._build_form_summary
(source lines 627-654). -/
def peSummaryParts (pe : PERecord) : List String :=
  (if !pe.general.isEmpty then ["General: " ++ joinSep ", " pe.general] else [])
    ++ (let v := pe.vitals
        if v.bp ≠ "" ∨ v.hr ≠ "" ∨ v.temp ≠ "" ∨ v.spo2 ≠ "" ∨ v.rr ≠ "" then
          let vitals_str :=
            (if v.bp ≠ "" then ["BP " ++ v.bp] else [])
              ++ (if v.hr ≠ "" then ["HR " ++ v.hr] else [])
              ++ (if v.temp ≠ "" then ["Temp " ++ v.temp] else [])
              ++ (if v.spo2 ≠ "" then ["SpO2 " ++ v.spo2 ++ "%"] else [])
              ++ (if v.rr ≠ "" then ["RR " ++ v.rr] else [])
          ["Vitals: " ++ joinSep ", " vitals_str]
        else [])
    ++ (if !pe.cardiovascular.isEmpty then ["CV: " ++ joinSep ", " pe.cardiovascular] else [])
    ++ (if !pe.respiratory.isEmpty then ["Resp: " ++ joinSep ", " pe.respiratory] else [])

/-- The parts list of ClinicalRAG._build_form_summary (source lines 587-660). -/
def formSummaryParts (form : FormDataRec) : List String :=
  ["Chief Complaint: " ++ form.chief_complaint.getD "Not specified"]
    ++ (let hpi_parts := hpiSummaryParts form.hpi
        if !hpi_parts.isEmpty then ["HPI:\n  " ++ joinSep "\n  " hpi_parts] else [])
    ++ (if !form.associated_symptoms.isEmpty then
          ["Associated Symptoms: " ++ joinSep ", " form.associated_symptoms] else [])
    ++ (match form.physical_exam with
        | none => []
        | some pe =>
          let pe_parts := peSummaryParts pe
          if !pe_parts.isEmpty then ["Physical Exam:\n  " ++ joinSep "\n  " pe_parts] else [])
    ++ (if form.doctor_notes ≠ "" then ["Clinical Notes: " ++ form.doctor_notes] else [])

/-- ClinicalRAG._build_form_summary. -/
def build_form_summary (form : FormDataRec) : String :=
  joinSep "\n" (formSummaryParts form)

/-- ClinicalRAG._build_query (source lines 386-413). -/
def build_query (form : FormDataRec) (pc : PatientContext) : String :=
  joinSep " | "
    ((if form.chief_complaint.getD "" ≠ "" then
        ["Chief complaint: " ++ form.chief_complaint.getD ""] else [])
      ++ (if !form.associated_symptoms.isEmpty then
            ["Symptoms: " ++ joinSep ", " form.associated_symptoms] else [])
      ++ (if !form.hpi.location.isEmpty then
            ["Location: " ++ joinSep ", " form.hpi.location] else [])
      ++ (if !form.hpi.quality.isEmpty then
            ["Quality: " ++ joinSep ", " form.hpi.quality] else [])
      ++ (if form.hpi.severity.getD 0 ≠ 0 then
            ["Severity: " ++ toString (form.hpi.severity.getD 0) ++ "/10"] else [])
      ++ (if pc.age.getD 0 ≠ 0 then ["Age: " ++ toString (pc.age.getD 0)] else [])
      ++ (if pc.gender.getD "" ≠ "" then ["Gender: " ++ pc.gender.getD ""] else []))

/-- The fixed field order of the retrieval query as the specification states
it: label, and the value when the field is present. -/
def queryFieldValues (form : FormDataRec) (pc : PatientContext) :
    List (String × Option String) :=
  [("Chief complaint",
      if form.chief_complaint.getD "" ≠ "" then some (form.chief_complaint.getD "") else none),
   ("Symptoms",
      if !form.associated_symptoms.isEmpty then
        some (joinSep ", " form.associated_symptoms) else none),
   ("Location",
      if !form.hpi.location.isEmpty then some (joinSep ", " form.hpi.location) else none),
   ("Quality",
      if !form.hpi.quality.isEmpty then some (joinSep ", " form.hpi.quality) else none),
   ("Severity",
      if form.hpi.severity.getD 0 ≠ 0 then
        some (toString (form.hpi.severity.getD 0) ++ "/10") else none),
   ("Age", if pc.age.getD 0 ≠ 0 then some (toString (pc.age.getD 0)) else none),
   ("Gender", if pc.gender.getD "" ≠ "" then some (pc.gender.getD "") else none)]

/-- The specification-side rendering of the retrieval query: exactly the
present fields, in the fixed order, each rendered as label-colon-value, and
joined with the fixed separator. -/
def build_query_spec (form : FormDataRec) (pc : PatientContext) : String :=
  joinSep " | "
    ((queryFieldValues form pc).filterMap (fun lv => lv.2.map (fun v => lv.1 ++ ": " ++ v)))

/-- Rendering of a similarity score inside the context block.  The source
formats the float score with two decimals; scores are modelled as integers. -/
def formatRelevance (n : Int) : String := toString n ++ ".00"

/-- ClinicalRAG._build_context (source lines 415-428). -/
def build_context (chunks : List Chunk) : String :=
  if chunks.isEmpty then "No relevant clinical patterns found."
  else
    joinSep "\n\n---\n\n"
      (chunks.enum.map (fun p =>
        "[Pattern " ++ toString (p.1 + 1) ++ "] (Relevance: "
          ++ formatRelevance (p.2.score.getD 0) ++ ")\n" ++ p.2.text))

/-! ## Prompts -/

/-- The allergy instruction of the grounded system prompt (source line 448). -/
def grounded_allergy_instruction : String :=
  "ALWAYS check patient allergies before recommending any medications"

/-- The allergy instruction of the fallback system prompt (source line 713). -/
def fallback_allergy_instruction : String :=
  "Always check patient allergies before recommending medications."

/-- The system prompt of the grounded generation call (source lines 445-453). -/
def grounded_system_prompt : String :=
  "You are an expert clinical decision support system. Your role is to analyze patient presentations and provide comprehensive clinical analysis.\n\nCRITICAL SAFETY RULES:\n1. "
    ++ grounded_allergy_instruction
    ++ "\n2. If patient has Penicillin allergy, do NOT recommend penicillin-based antibiotics (amoxicillin, ampicillin, etc.)\n3. Flag any potential drug interactions or contraindications\n4. Prioritize immediate life-threatening conditions\n\nYou must return a valid JSON object with the exact structure specified."

/-- The system prompt of the fallback generation call (source lines 711-715). -/
def fallback_system_prompt : String :=
  "You are a clinical decision support system. Analyze the patient presentation and provide comprehensive clinical analysis.\n\nCRITICAL: "
    ++ fallback_allergy_instruction
    ++ "\n\nReturn a valid JSON object with the required structure."

/-- Python repr of a list of strings, as interpolated at source line 505. -/
def pyReprStrList (l : List String) : String :=
  "[" ++ joinSep ", " (l.map (fun s => "\x27" ++ s ++ "\x27")) ++ "]"

/-- The fixed output-schema block of the grounded user prompt
(source lines 469-499, with the doubled f-string braces rendered). -/
def output_schema_block : String :=
  "\x7b\n  \"clinical_note\": \x7b\n    \"subjective\": \"Detailed subjective findings in SOAP format...\",\n    \"objective\": \"Detailed objective findings...\",\n    \"assessment\": \"Clinical assessment and impression...\",\n    \"plan\": \"Detailed treatment plan...\"\n  \x7d,\n  \"icd10_codes\": [\n    \x7b\"code\": \"I20.9\", \"description\": \"Angina pectoris, unspecified\", \"type\": \"primary\"\x7d,\n    \x7b\"code\": \"R07.9\", \"description\": \"Chest pain, unspecified\", \"type\": \"secondary\"\x7d\n  ],\n  \"differential_diagnoses\": [\n    \x7b\n      \"name\": \"Diagnosis name\",\n      \"risk\": \"HIGH/MEDIUM/LOW\",\n      \"supporting_factors\": [\"factor1\", \"factor2\"],\n      \"recommended_actions\": [\"action1\", \"action2\"]\n    \x7d\n  ],\n  \"recommended_actions\": \x7b\n    \"immediate\": [\n      \x7b\"name\": \"Task name\", \"category\": \"Category\", \"details\": \"Reason/details\"\x7d\n    ],\n    \"urgent\": [\n      \x7b\"name\": \"Task name\", \"category\": \"Category\", \"details\": \"Reason/details\"\x7d\n    ],\n    \"routine\": [\n      \x7b\"name\": \"Task name\", \"category\": \"Category\", \"details\": \"Reason/details\"\x7d\n    ]\n  \x7d\n\x7d"

/-- The user prompt of the grounded generation call (source lines 456-506). -/
def grounded_user_prompt (form : FormDataRec) (pc : PatientContext)
    (context : String) : String :=
  "Analyze this patient presentation and generate a comprehensive clinical analysis.\n\n## PATIENT INFORMATION\n"
    ++ build_patient_summary pc
    ++ "\n\n## CLINICAL PRESENTATION\n"
    ++ build_form_summary form
    ++ "\n\n## RELEVANT CLINICAL PATTERNS FROM KNOWLEDGE BASE\n"
    ++ context
    ++ "\n\n## REQUIRED OUTPUT\nGenerate a JSON response with this EXACT structure:\n"
    ++ output_schema_block
    ++ "\n\nIMPORTANT:\n- Generate 3-5 differential diagnoses ranked by likelihood\n- Include at least 2-4 ICD-10 codes\n- Distribute tasks across immediate (STAT), urgent (today), and routine categories\n- Reference patient allergies ("
    ++ pyReprStrList (pc.allergies.getD ["None known"])
    ++ ") when recommending medications\n- Use the clinical patterns from the knowledge base as examples but adapt to this specific patient"

/-- The user prompt of the fallback generation call (source lines 717-726). -/
def fallback_user_prompt (form : FormDataRec) (pc : PatientContext) : String :=
  "Analyze this patient and generate clinical analysis.\n\n## PATIENT\n"
    ++ build_patient_summary pc
    ++ "\n\n## PRESENTATION\n"
    ++ build_form_summary form
    ++ "\n\n## OUTPUT (JSON)\nReturn JSON with: clinical_note (subjective/objective/assessment/plan), icd10_codes, differential_diagnoses, recommended_actions (immediate/urgent/routine)."

/-! ## Structure repair and the generation ladder -/

/-- The default clinical note inserted when the key is missing
(source lines 667-672). -/
def defaultClinicalNote : Json :=
  .obj [("subjective", .str ""), ("objective", .str ""),
    ("assessment", .str ""), ("plan", .str "")]

/-- The default action tiers inserted when the key is missing
(source lines 688-692). -/
def defaultRecommendedActions : Json :=
  .obj [("immediate", .arr []), ("urgent", .arr []), ("routine", .arr [])]

/-- The inner repair loop: for each field, if the field is not in
result[key], assign result[key][field] = dflt.  A Python TypeError or
KeyError anywhere is an exception escaping _validate_response_structure
(none). -/
def fixInner (key : String) (dflt : Json) : Json → List String → Option Json
  | result, [] => some result
  | result, f :: fs =>
    match pyGetItem result key with
    | none => none
    | some inner =>
      match pyContains inner f with
      | none => none
      | some true => fixInner key dflt result fs
      | some false =>
        match pySetItem inner f dflt with
        | none => none
        | some inner2 =>
          match pySetItem result key inner2 with
          | none => none
          | some result2 => fixInner key dflt result2 fs

/-- Repair of the clinical_note component (source lines 666-676). -/
def ensureNote (result : Json) : Option Json :=
  match pyContains result "clinical_note" with
  | none => none
  | some false => pySetItem result "clinical_note" defaultClinicalNote
  | some true =>
    fixInner "clinical_note" (.str "") result
      ["subjective", "objective", "assessment", "plan"]

/-- Repair of a top-level list component: insert the default only when the
key is missing (source lines 679-684). -/
def ensureKey (result : Json) (k : String) (dflt : Json) : Option Json :=
  match pyContains result k with
  | none => none
  | some false => pySetItem result k dflt
  | some true => some result

/-- Repair of the recommended_actions component (source lines 687-696). -/
def ensureActions (result : Json) : Option Json :=
  match pyContains result "recommended_actions" with
  | none => none
  | some false => pySetItem result "recommended_actions" defaultRecommendedActions
  | some true => fixInner "recommended_actions" (.arr []) result ["immediate", "urgent", "routine"]

/-- ClinicalRAG._validate_response_structure (source lines 662-698); none
models an exception escaping it. -/
def validate_response_structure (result : Json) : Option Json :=
  (ensureNote result).bind (fun r1 =>
    (ensureKey r1 "icd10_codes" (.arr [])).bind (fun r2 =>
      (ensureKey r2 "differential_diagnoses" (.arr [])).bind (fun r3 =>
        ensureActions r3)))

/-- The minimal valid structure returned when the fallback generation also
fails (source lines 745-759). -/
def minimal_result (form : FormDataRec) : Json :=
  .obj [("clinical_note",
          .obj [("subjective",
                  .str ("Patient presents with: " ++ form.chief_complaint.getD "Unknown")),
                ("objective", .str "Unable to generate - please check system logs"),
                ("assessment", .str "Analysis generation failed"),
                ("plan", .str "Please review manually")]),
        ("icd10_codes", .arr []),
        ("differential_diagnoses", .arr []),
        ("recommended_actions",
          .obj [("immediate", .arr []), ("urgent", .arr []), ("routine", .arr [])])]

/-- ClinicalRAG.generate_analysis (source lines 353-384), with the external
generative model as an oracle gen mapping a (system prompt, user prompt)
pair to either a parsed JSON reply or none for a provider error, a timeout,
or an unparsable reply.  The grounded call runs first; any exception in it,
including one raised inside the repair step, falls through to the fallback
call; an exception there yields the minimal result. -/
def generate_analysis (form : FormDataRec) (pc : PatientContext) (st : EngineState)
    (embedOk : Bool) (searchOut : List (Int × Int))
    (gen : String → String → Option Json) : Json :=
  let query := build_query form pc
  let retrieved := (retrieve st query 10 embedOk searchOut).1
  let context := build_context retrieved
  match (gen grounded_system_prompt (grounded_user_prompt form pc context)).bind
      validate_response_structure with
  | some result => result
  | none =>
    match (gen fallback_system_prompt (fallback_user_prompt form pc)).bind
        validate_response_structure with
    | some result => result
    | none => minimal_result form

/-- The claim-side notion of a fully structurally valid analysis result:
a clinical_note object with exactly the four sections, list-valued code and
differential components, and a recommended_actions object with exactly the
three tiers. -/
def isFullAnalysis (j : Json) : Bool :=
  match j with
  | .obj fs =>
    (match objGet fs "clinical_note" with
     | some (.obj cf) =>
       (cf.length == 4) && objMem cf "subjective" && objMem cf "objective"
         && objMem cf "assessment" && objMem cf "plan"
     | _ => false)
    && (match objGet fs "icd10_codes" with | some (.arr _) => true | _ => false)
    && (match objGet fs "differential_diagnoses" with | some (.arr _) => true | _ => false)
    && (match objGet fs "recommended_actions" with
        | some (.obj af) =>
          (af.length == 3) && objMem af "immediate" && objMem af "urgent" && objMem af "routine"
        | _ => false)
  | _ => false

/-- The weaker guarantee the repair step actually establishes: the four
top-level keys are present. -/
def jsonHasTopKeys (j : Json) : Bool :=
  match j with
  | .obj fs =>
    objMem fs "clinical_note" && objMem fs "icd10_codes"
      && objMem fs "differential_diagnoses" && objMem fs "recommended_actions"
  | _ => false

/-! ## Lemmas about the repair step -/

theorem objMem_objSet_self (fs : List (String × Json)) (k : String) (v : Json) :
    objMem (objSet fs k v) k = true := by
  induction fs with
  | nil => simp [objMem, objSet]
  | cons p rest ih =>
    obtain ⟨k0, v0⟩ := p
    by_cases h : k0 == k
    · simp [objSet, h, objMem]
    · simp only [objSet, h, if_neg]
      simp only [objMem, List.any_cons] at ih ⊢
      simp [ih, h]

theorem objMem_objSet_mono (fs : List (String × Json)) (k k2 : String) (v : Json)
    (h : objMem fs k2 = true) : objMem (objSet fs k v) k2 = true := by
  induction fs with
  | nil => simp [objMem] at h
  | cons p rest ih =>
    obtain ⟨k0, v0⟩ := p
    cases hk : (k0 == k) with
    | true =>
      have hset : objSet ((k0, v0) :: rest) k v = (k0, v) :: rest := by simp [objSet, hk]
      rw [hset]
      simp only [objMem, List.any_cons, Bool.or_eq_true] at h ⊢
      exact h
    | false =>
      have hset : objSet ((k0, v0) :: rest) k v = (k0, v0) :: objSet rest k v := by
        simp [objSet, hk]
      rw [hset]
      simp only [objMem, List.any_cons, Bool.or_eq_true] at h ⊢
      rcases h with h | h
      · exact Or.inl h
      · exact Or.inr (ih h)

theorem fixInner_obj_mono (key : String) (d : Json) :
    ∀ (fields : List String) (fs : List (String × Json)) (r : Json),
      fixInner key d (.obj fs) fields = some r →
      ∃ gs, r = .obj gs ∧ ∀ k2, objMem fs k2 = true → objMem gs k2 = true := by
  intro fields
  induction fields with
  | nil =>
    intro fs r h
    simp only [fixInner, Option.some_inj] at h
    exact ⟨fs, h.symm, fun _ hk => hk⟩
  | cons f fsl ih =>
    intro fs r h
    simp only [fixInner] at h
    split at h
    · simp at h
    · split at h
      · simp at h
      · exact ih fs r h
      · split at h
        · simp at h
        · split at h
          · simp at h
          · next result2 hset =>
            simp only [pySetItem, Option.some_inj] at hset
            obtain ⟨gs, hr, hmono⟩ := ih _ r (hset ▸ h)
            exact ⟨gs, hr, fun k2 hk => hmono k2 (objMem_objSet_mono fs key k2 _ hk)⟩

theorem fixInner_cons_obj {key : String} {d : Json} {f : String} {fsl : List String}
    {j r : Json} (h : fixInner key d j (f :: fsl) = some r) :
    ∃ fs, j = Json.obj fs := by
  cases j with
  | obj fs => exact ⟨fs, rfl⟩
  | null => simp [fixInner, pyGetItem] at h
  | bool b => simp [fixInner, pyGetItem] at h
  | num n => simp [fixInner, pyGetItem] at h
  | str s => simp [fixInner, pyGetItem] at h
  | arr xs => simp [fixInner, pyGetItem] at h

theorem ensureNote_spec {j r : Json} (h : ensureNote j = some r) :
    ∃ fs gs, j = Json.obj fs ∧ r = Json.obj gs ∧ objMem gs "clinical_note" = true
      ∧ ∀ k2, objMem fs k2 = true → objMem gs k2 = true := by
  unfold ensureNote at h
  cases hc : pyContains j "clinical_note" with
  | none => rw [hc] at h; exact absurd h (by simp)
  | some b =>
    rw [hc] at h
    cases b with
    | false =>
      cases j with
      | obj fs =>
        simp only [pySetItem, Option.some_inj] at h
        exact ⟨fs, objSet fs "clinical_note" defaultClinicalNote, rfl, h.symm,
          objMem_objSet_self fs _ _,
          fun k2 hk => objMem_objSet_mono fs _ k2 _ hk⟩
      | null => simp [pySetItem] at h
      | bool b2 => simp [pySetItem] at h
      | num n => simp [pySetItem] at h
      | str s => simp [pySetItem] at h
      | arr xs => simp [pySetItem] at h
    | true =>
      obtain ⟨fs, rfl⟩ := fixInner_cons_obj h
      obtain ⟨gs, hr, hmono⟩ := fixInner_obj_mono "clinical_note" (.str "") _ fs r h
      have hmem : objMem fs "clinical_note" = true := by
        simpa [pyContains] using hc
      exact ⟨fs, gs, rfl, hr, hmono _ hmem, hmono⟩

theorem ensureKey_spec {fs : List (String × Json)} {k : String} {d r : Json}
    (h : ensureKey (.obj fs) k d = some r) :
    ∃ gs, r = Json.obj gs ∧ objMem gs k = true
      ∧ ∀ k2, objMem fs k2 = true → objMem gs k2 = true := by
  unfold ensureKey at h
  simp only [pyContains] at h
  by_cases hm : objMem fs k
  · rw [hm] at h
    simp only [Option.some_inj] at h
    exact ⟨fs, h.symm, hm, fun _ hk => hk⟩
  · simp only [Bool.not_eq_true] at hm
    rw [hm] at h
    simp only [pySetItem, Option.some_inj] at h
    exact ⟨objSet fs k d, h.symm, objMem_objSet_self fs k d,
      fun k2 hk => objMem_objSet_mono fs k k2 d hk⟩

theorem ensureActions_spec {fs : List (String × Json)} {r : Json}
    (h : ensureActions (.obj fs) = some r) :
    ∃ gs, r = Json.obj gs ∧ objMem gs "recommended_actions" = true
      ∧ ∀ k2, objMem fs k2 = true → objMem gs k2 = true := by
  unfold ensureActions at h
  simp only [pyContains] at h
  by_cases hm : objMem fs "recommended_actions"
  · rw [hm] at h
    obtain ⟨gs, hr, hmono⟩ := fixInner_obj_mono "recommended_actions" (.arr []) _ fs r h
    exact ⟨gs, hr, hmono _ hm, hmono⟩
  · simp only [Bool.not_eq_true] at hm
    rw [hm] at h
    simp only [pySetItem, Option.some_inj] at h
    exact ⟨objSet fs "recommended_actions" defaultRecommendedActions, h.symm,
      objMem_objSet_self fs _ _, fun k2 hk => objMem_objSet_mono fs _ k2 _ hk⟩

theorem validate_topKeys {j r : Json} (h : validate_response_structure j = some r) :
    jsonHasTopKeys r = true := by
  unfold validate_response_structure at h
  obtain ⟨r1, h1, h⟩ := Option.bind_eq_some.mp h
  obtain ⟨r2, h2, h⟩ := Option.bind_eq_some.mp h
  obtain ⟨r3, h3, h4⟩ := Option.bind_eq_some.mp h
  obtain ⟨fs0, gs1, rfl, rfl, hcn1, _⟩ := ensureNote_spec h1
  obtain ⟨gs2, rfl, hicd2, hmono2⟩ := ensureKey_spec h2
  obtain ⟨gs3, rfl, hdiff3, hmono3⟩ := ensureKey_spec h3
  obtain ⟨gs4, rfl, hra4, hmono4⟩ := ensureActions_spec h4
  have hcn := hmono4 _ (hmono3 _ (hmono2 _ hcn1))
  have hicd := hmono4 _ (hmono3 _ hicd2)
  have hdiff := hmono4 _ hdiff3
  simp [jsonHasTopKeys, hcn, hicd, hdiff, hra4]

theorem genAnalysis_topKeys (form : FormDataRec) (pc : PatientContext)
    (st : EngineState) (eo : Bool) (so : List (Int × Int))
    (gen : String → String → Option Json) :
    jsonHasTopKeys (generate_analysis form pc st eo so gen) = true := by
  simp only [generate_analysis]
  split
  · next result heq =>
    obtain ⟨a, _, hv⟩ := Option.bind_eq_some.mp heq
    exact validate_topKeys hv
  · split
    · next result heq =>
      obtain ⟨a, _, hv⟩ := Option.bind_eq_some.mp heq
      exact validate_topKeys hv
    · rfl

theorem genAnalysis_both_fail (form : FormDataRec) (pc : PatientContext)
    (st : EngineState) (eo : Bool) (so : List (Int × Int)) :
    generate_analysis form pc st eo so (fun _ _ => none) = minimal_result form := rfl

/-! ## Lemmas about retrieval -/

theorem retrieve_index_none (st : EngineState) (q : String) (k : Nat) (eo : Bool)
    (so : List (Int × Int)) (h : st.index = none) :
    (retrieve st q k eo so).1 = [] := by
  simp [retrieve, h]

theorem pyListGet_mem {α : Type} {l : List α} {i : Int} {c : α}
    (h : pyListGet l i = some c) : c ∈ l := by
  unfold pyListGet at h
  split at h
  · exact List.get?_mem h
  · split at h
    · exact List.get?_mem h
    · exact absurd h (by simp)

theorem retrieveLoop_mem {chunks : List Chunk} :
    ∀ {out : List (Int × Int)} {rs : List Chunk},
      retrieveLoop chunks out = some rs →
      ∀ r ∈ rs, ∃ c s, c ∈ chunks ∧ r = setScore c s := by
  intro out
  induction out with
  | nil =>
    intro rs h r hr
    simp only [retrieveLoop, Option.some_inj] at h
    subst h
    simp at hr
  | cons p rest ih =>
    intro rs h r hr
    obtain ⟨score, idx⟩ := p
    simp only [retrieveLoop] at h
    split at h
    · cases hg : pyListGet chunks idx with
      | none => rw [hg] at h; exact absurd h (by simp)
      | some c =>
        rw [hg] at h
        obtain ⟨rs0, hrs0, hcons⟩ := Option.map_eq_some'.mp h
        subst hcons
        rcases List.mem_cons.mp hr with rfl | hmem
        · exact ⟨c, score, pyListGet_mem hg, rfl⟩
        · exact ih hrs0 r hmem
    · exact ih h r hr

/-! ## Non-emptiness of chunk texts -/

theorem mem_ite_singleton {α : Type} {y x : α} {p : Prop} [Decidable p]
    (h : y ∈ (if p then [x] else ([] : List α))) : y = x := by
  split at h
  · simpa using h
  · simp at h

theorem overview_text_ne (s : Scenario) : pyStrip (overview_text s) ≠ "" := by
  apply pyStrip_ne_empty (c := 'C')
  · unfold overview_text
    repeat apply mem_data_append_left
    decide
  · decide

theorem hpi_text_ne (s : Scenario) : pyStrip (hpi_text s) ≠ "" := by
  apply pyStrip_ne_empty (c := 'C')
  · unfold hpi_text
    repeat apply mem_data_append_left
    decide
  · decide

theorem pe_text_ne (s : Scenario) (pe : PERecord) : pyStrip (pe_text s pe) ≠ "" := by
  apply pyStrip_ne_empty (c := 'P')
  · unfold pe_text
    repeat apply mem_data_append_left
    decide
  · decide

theorem notes_text_ne (s : Scenario) : pyStrip (notes_text s) ≠ "" := by
  apply pyStrip_ne_empty (c := 'C')
  · unfold notes_text
    repeat apply mem_data_append_left
    decide
  · decide

theorem dx_text_ne (dx : DxRecord) : pyStrip (dx_text dx) ≠ "" := by
  apply pyStrip_ne_empty (c := 'D')
  · unfold dx_text
    repeat apply mem_data_append_left
    decide
  · decide

theorem task_text_ne (priority : String) (l : List TaskRecord) :
    pyStrip (task_chunk_text priority l) ≠ "" := by
  apply pyStrip_ne_empty (c := 'C')
  · unfold task_chunk_text
    repeat apply mem_data_append_left
    decide
  · decide

theorem icd_text_ne (codes : List IcdCode) : pyStrip (icd_text codes) ≠ "" := by
  apply pyStrip_ne_empty (c := 'I')
  · unfold icd_text
    repeat apply mem_data_append_left
    decide
  · decide

theorem note_chunk_text_ne (note : String) :
    ("Clinical Note Pattern:\n" ++ note_preview note) ≠ "" := by
  apply str_ne_empty_of_mem (c := 'C')
  apply mem_data_append_left
  decide

theorem extract_scenario_text_ne (s : Scenario) :
    ∀ c ∈ extract_scenario_chunks s, c.text ≠ "" := by
  intro c hc
  simp only [extract_scenario_chunks] at hc
  rcases List.mem_append.mp hc with hc | hc
  · rcases List.mem_append.mp hc with hc | hc
    · rcases List.mem_cons.mp hc with rfl | hc
      · exact overview_text_ne s
      · rcases List.mem_cons.mp hc with rfl | hc
        · exact hpi_text_ne s
        · simp at hc
    · cases hpe : s.form_data.physical_exam with
      | none => rw [hpe] at hc; simp at hc
      | some pe =>
        rw [hpe] at hc
        rcases List.mem_cons.mp hc with rfl | hc
        · exact pe_text_ne s pe
        · simp at hc
  · have := mem_ite_singleton hc
    subst this
    exact notes_text_ne s

theorem mem_tier_chunks_text {c : Chunk} {rk tt pr : String} {l : List TaskRecord}
    (h : c ∈ tier_chunks rk tt pr l) : c.text = pyStrip (task_chunk_text pr l) := by
  unfold tier_chunks at h
  split at h
  · have := List.mem_singleton.mp h
    subst this
    rfl
  · simp at h

theorem dx_chunk_type (rk : String) (p : Nat × DxRecord) :
    (dx_chunk rk p).type = "differential_diagnosis" := rfl

theorem extract_response_text_ne (rk : String) (r : ResponseRecord) :
    ∀ c ∈ extract_response_chunks rk r, c.text ≠ "" := by
  intro c hc
  simp only [extract_response_chunks] at hc
  rcases List.mem_append.mp hc with hc | hc
  · rcases List.mem_append.mp hc with hc | hc
    · rcases List.mem_append.mp hc with hc | hc
      · rcases List.mem_append.mp hc with hc | hc
        · rcases List.mem_append.mp hc with hc | hc
          · have := mem_ite_singleton hc
            subst this
            exact note_chunk_text_ne r.clinical_note
          · obtain ⟨p, _, rfl⟩ := List.mem_map.mp hc
            exact dx_text_ne p.2
        · rw [mem_tier_chunks_text hc]
          exact task_text_ne "IMMEDIATE" r.tasks.immediate_tasks
      · rw [mem_tier_chunks_text hc]
        exact task_text_ne "URGENT" r.tasks.urgent_tasks
    · rw [mem_tier_chunks_text hc]
      exact task_text_ne "ROUTINE" r.tasks.routine_tasks
  · have := mem_ite_singleton hc
    subst this
    exact icd_text_ne r.icd10_codes

/-! ## Occurrence of summary lines inside the prompts -/

theorem strOccurs_grounded_user_of_patient (form : FormDataRec) (pc : PatientContext)
    (context p : String) (h : strOccurs (build_patient_summary pc) p = true) :
    strOccurs (grounded_user_prompt form pc context) p = true := by
  unfold grounded_user_prompt
  apply strOccurs_append_right
  apply strOccurs_append_right
  apply strOccurs_append_right
  apply strOccurs_append_right
  apply strOccurs_append_right
  apply strOccurs_append_right
  apply strOccurs_append_right
  apply strOccurs_append_right
  apply strOccurs_append_right
  exact strOccurs_append_left _ _ _ h

theorem strOccurs_fallback_user_of_patient (form : FormDataRec) (pc : PatientContext)
    (p : String) (h : strOccurs (build_patient_summary pc) p = true) :
    strOccurs (fallback_user_prompt form pc) p = true := by
  unfold fallback_user_prompt
  apply strOccurs_append_right
  apply strOccurs_append_right
  apply strOccurs_append_right
  exact strOccurs_append_left _ _ _ h

theorem strOccurs_grounded_user_of_form (form : FormDataRec) (pc : PatientContext)
    (context p : String) (h : strOccurs (build_form_summary form) p = true) :
    strOccurs (grounded_user_prompt form pc context) p = true := by
  unfold grounded_user_prompt
  apply strOccurs_append_right
  apply strOccurs_append_right
  apply strOccurs_append_right
  apply strOccurs_append_right
  apply strOccurs_append_right
  apply strOccurs_append_right
  apply strOccurs_append_right
  exact strOccurs_append_left _ _ _ h

theorem strOccurs_of_mem_parts {l : List String} {x : String} (hx : x ∈ l)
    (sep p : String) (hp : occursInB p.data x.data = true) :
    strOccurs (joinSep sep l) p = true :=
  strOccurs_of_mem_joinSep sep l x hx p hp

/-! ## Marker lemmas about the patient and form summaries -/

theorem mem_ite_lists {α : Type} {y : α} {p : Prop} [Decidable p] {l1 l2 : List α}
    (h : y ∈ (if p then l1 else l2)) : y ∈ l1 ∨ y ∈ l2 := by
  split at h
  · exact Or.inl h
  · exact Or.inr h

theorem allergies_nonempty_bool {pc : PatientContext} (h : pc.allergies.getD [] ≠ []) :
    (!(pc.allergies.getD []).isEmpty) = true := by
  cases hal : pc.allergies.getD [] with
  | nil => exact absurd hal h
  | cons a t => rfl

theorem allergy_part_mem (pc : PatientContext) (h : pc.allergies.getD [] ≠ []) :
    ("⚠️ ALLERGIES: " ++ joinSep ", " (pc.allergies.getD [])) ∈ patientSummaryParts pc := by
  unfold patientSummaryParts
  simp [allergies_nonempty_bool h, List.mem_append]

theorem marker_in_patient_summary (pc : PatientContext)
    (h : pc.allergies.getD [] ≠ []) :
    strOccurs (build_patient_summary pc) "⚠️ ALLERGIES:" = true := by
  unfold build_patient_summary
  apply strOccurs_of_mem_joinSep "\n" _ _ (allergy_part_mem pc h)
  rw [strData_append]
  exact occursInB_of_isPrefixOf (isPrefixOf_extend _ (by decide))

theorem pmhx_marker_mem (pc : PatientContext) (h : pc.medical_history = []) :
    "Past Medical History: None documented" ∈ patientSummaryParts pc := by
  unfold patientSummaryParts
  simp [h, List.mem_append]

theorem meds_marker_mem (pc : PatientContext) (h : pc.medications = []) :
    "Current Medications: None" ∈ patientSummaryParts pc := by
  unfold patientSummaryParts
  simp [h, List.mem_append]

theorem nkda_marker_mem (pc : PatientContext) (h : pc.allergies.getD [] = []) :
    "Allergies: NKDA (No Known Drug Allergies)" ∈ patientSummaryParts pc := by
  unfold patientSummaryParts
  simp [h, List.mem_append]

theorem cc_marker_mem (form : FormDataRec) (h : form.chief_complaint = none) :
    ("Chief Complaint: " ++ form.chief_complaint.getD "Not specified")
      ∈ formSummaryParts form := by
  unfold formSummaryParts
  simp [List.mem_append]

theorem gender_not_prefix (pc : PatientContext) (hg : pc.gender = none) :
    ∀ part ∈ patientSummaryParts pc, ("Gender".data.isPrefixOf part.data) = false := by
  intro part hp
  unfold patientSummaryParts at hp
  simp only [hg, List.mem_append, Option.getD_none] at hp
  simp only [ne_eq, not_true_eq_false, Bool.false_eq_true, if_false, List.not_mem_nil,
    or_false, false_or] at hp
  rcases hp with ((((((h | h) | h) | h) | h) | h) | h) <;>
    rcases mem_ite_lists h with h | h <;>
    simp only [List.mem_singleton, List.not_mem_nil] at h <;>
    subst h <;>
    first
      | decide
      | (rw [strData_append]; exact isPrefixOf_cons_ne (by decide))

/-! ## Partially populated generation results (for the repair-completeness claim) -/

/-- A JSON object field that is present or missing. -/
def optField (k : String) (v : Option Json) : List (String × Json) :=
  match v with
  | none => []
  | some x => [(k, x)]

/-- A clinical note object missing zero or more of the four sections. -/
def mkNotePartial (s o a p : Option String) : Json :=
  .obj (optField "subjective" (s.map .str) ++ optField "objective" (o.map .str)
    ++ optField "assessment" (a.map .str) ++ optField "plan" (p.map .str))

/-- A recommended-actions object missing zero or more of the three tiers. -/
def mkActionsPartial (ti tu tr : Option (List Json)) : Json :=
  .obj (optField "immediate" (ti.map .arr) ++ optField "urgent" (tu.map .arr)
    ++ optField "routine" (tr.map .arr))

/-- A parsed generation result: a JSON object missing zero or more of the
expected fields, with the present fields of the expected shapes. -/
def mkPartialResult
    (cn : Option (Option String × Option String × Option String × Option String))
    (icd diff : Option (List Json))
    (ra : Option (Option (List Json) × Option (List Json) × Option (List Json))) : Json :=
  .obj (optField "clinical_note" (cn.map (fun q => mkNotePartial q.1 q.2.1 q.2.2.1 q.2.2.2))
    ++ optField "icd10_codes" (icd.map .arr)
    ++ optField "differential_diagnoses" (diff.map .arr)
    ++ optField "recommended_actions" (ra.map (fun q => mkActionsPartial q.1 q.2.1 q.2.2)))

/-! ## Concrete inputs used by witnesses and counterexamples -/

/-- A patient context with every optional field absent. -/
def pcEmpty : PatientContext :=
  { name := none, age := none, gender := none, mrn := none,
    medical_history := [], medications := [], allergies := none, vitals := none }

/-- A patient context with a penicillin allergy (the test patient of
backend/test_rag.py). -/
def pcAllergy : PatientContext :=
  { name := some "Test Patient", age := some 55, gender := some "Male", mrn := none,
    medical_history := ["Hypertension", "Diabetes"], medications := [],
    allergies := some ["Penicillin"], vitals := none }

/-- An empty clinical form. -/
def formEmpty : FormDataRec :=
  { chief_complaint := none, hpi := default, associated_symptoms := [],
    physical_exam := none, doctor_notes := "" }

/-- A chest-pain clinical form. -/
def formChest : FormDataRec :=
  { chief_complaint := some "Chest pain", hpi := default,
    associated_symptoms := ["shortness of breath", "sweating"],
    physical_exam := none, doctor_notes := "" }

/-- A scenario record whose source fields are all absent. -/
def scenarioEmpty : Scenario :=
  { id := none, name := "", description := "", form_data := formEmpty }

/-- A single stored chunk, for the retrieval counterexample. -/
def chunk0 : Chunk :=
  { id := "scenario_s1_overview", type := "scenario_overview", scenario_id := some "s1",
    response_key := none, text := "Clinical Scenario: chest pain", metadata := [],
    score := none }

/-- An engine state holding one chunk with a built index. -/
def stOneChunk : EngineState := { chunks := [chunk0], embeddings := some (), index := some () }

/-- An engine state with no index (degraded state). -/
def stNoIndex : EngineState := { chunks := [], embeddings := none, index := none }

/-- The degraded engine state reached when the knowledge source is readable
but the index build fails. -/
def st_noindex (kb : KnowledgeBase) : EngineState :=
  { chunks := load_knowledge_chunks kb, embeddings := none, index := none }

/-- A generation reply whose icd10_codes field is present but not a list. -/
def badGenOut : Json := .obj [("icd10_codes", .num 5)]

/-! ## Claim theorems -/

set_option maxHeartbeats 8000000 in
/-- C4: for every parsed generation result, a JSON object missing zero or
more of the expected fields, the structure-repair step succeeds and returns
a result with a clinical_note containing all four sections (missing ones
defaulted to the empty string), list-valued icd10_codes and
differential_diagnoses, and recommended_actions with exactly the three
tiers (missing ones defaulted to the empty list); it never rejects a
response merely for omitting optional substructure. -/
theorem c4_structure_repair_completeness
    (cn : Option (Option String × Option String × Option String × Option String))
    (icd diff : Option (List Json))
    (ra : Option (Option (List Json) × Option (List Json) × Option (List Json))) :
    ((validate_response_structure (mkPartialResult cn icd diff ra)).map isFullAnalysis).getD false
      = true := by
  rcases cn with _ | ⟨_ | s, _ | o, _ | a, _ | p⟩ <;>
    rcases icd with _ | icd <;>
    rcases diff with _ | diff <;>
    rcases ra with _ | ⟨_ | ti, _ | tu, _ | tr⟩ <;>
    rfl

theorem labelFold1 : "Chief complaint" ++ ": " = "Chief complaint: " := rfl

theorem labelFold2 : "Symptoms" ++ ": " = "Symptoms: " := rfl

theorem labelFold3 : "Location" ++ ": " = "Location: " := rfl

theorem labelFold4 : "Quality" ++ ": " = "Quality: " := rfl

theorem labelFold5 : "Severity" ++ ": " = "Severity: " := rfl

theorem labelFold6 : "Age" ++ ": " = "Age: " := rfl

theorem labelFold7 : "Gender" ++ ": " = "Gender: " := rfl

set_option maxHeartbeats 1000000 in
/-- C9: the retrieval query consists of exactly the present fields among
chief complaint, associated symptoms, HPI location, quality, severity,
patient age and gender, in that fixed order, each rendered as label-colon-
value and joined with the fixed separator; absent fields contribute
nothing, and the query is a pure function of its inputs. -/
theorem c9_build_query_fixed_order (form : FormDataRec) (pc : PatientContext) :
    build_query form pc = build_query_spec form pc := by
  unfold build_query build_query_spec queryFieldValues
  congr 1
  split_ifs <;>
    simp only [List.filterMap_cons_some, List.filterMap_cons_none, List.filterMap_nil,
      Option.map_some, Option.map_none, Option.map_some', Option.map_none',
      labelFold1, labelFold2, labelFold3, labelFold4, labelFold5, labelFold6, labelFold7,
      List.filterMap_cons] <;>
    simp [String.append_assoc]

/-- C7: whenever no similarity index is available, retrieve returns the
empty sequence for every query and every k; init with the FAISS library
missing, and init with a cache miss and a failed embedding build, both
leave the index unset. -/
theorem c7_retrieve_no_index_empty :
    (∀ (st : EngineState) (q : String) (k : Nat) (eo : Bool) (so : List (Int × Int)),
        st.index = none → (retrieve st q k eo so).1 = [])
    ∧ (∀ (kb : KnowledgeBase) (ch eo : Bool),
        clinicalRAG_init (.ok kb) false ch eo = .ok (st_noindex kb))
    ∧ (∀ kb : KnowledgeBase,
        clinicalRAG_init (.ok kb) true false false = .ok (st_noindex kb)) := by
  refine ⟨?_, ?_, ?_⟩
  · intro st q k eo so h
    exact retrieve_index_none st q k eo so h
  · intro kb ch eo
    rfl
  · intro kb
    rfl

/-- Witness for c7_retrieve_no_index_empty at a concrete degraded state. -/
theorem c7_retrieve_no_index_witness :
    stNoIndex.index = none
      ∧ (retrieve stNoIndex "chest pain" 8 true [(5, 0)]).1 = [] :=
  ⟨rfl, c7_retrieve_no_index_empty.1 stNoIndex "chest pain" 8 true [(5, 0)] rfl⟩

/-- C10: retrieve never mutates the engine state: the state after any call
is the input state (chunk list, embedding matrix and index unchanged), and
every returned result is a copy of a stored chunk with the score attached
to the copy only. -/
theorem c10_retrieve_frame (st : EngineState) (q : String) (k : Nat) (eo : Bool)
    (so : List (Int × Int)) :
    (retrieve st q k eo so).2 = st
      ∧ ∀ r ∈ (retrieve st q k eo so).1, ∃ c s, c ∈ st.chunks ∧ r = setScore c s := by
  unfold retrieve
  split
  · exact ⟨rfl, by intro r hr; simp at hr⟩
  · split
    · exact ⟨rfl, by intro r hr; simp at hr⟩
    · split
      · next heq => exact ⟨rfl, by intro r hr; simp at hr⟩
      · next rs heq => exact ⟨rfl, fun r hr => retrieveLoop_mem heq r hr⟩

/-- Witness for c10_retrieve_frame at a concrete state and search output. -/
theorem c10_retrieve_frame_witness :
    (retrieve stOneChunk "q" 2 true [(5, 0)]).2 = stOneChunk
      ∧ ∃ c s, c ∈ stOneChunk.chunks ∧ setScore chunk0 5 = setScore c s := by
  have h := c10_retrieve_frame stOneChunk "q" 2 true [(5, 0)]
  exact ⟨h.1, h.2 (setScore chunk0 5) (by simp [retrieve, stOneChunk, retrieveLoop, pyListGet])⟩

/-- C2 (code bug): on a corpus of one chunk, a FAISS search output for
top_k = 2 that satisfies the documented FAISS contract (second entry padded
with index -1) makes retrieve return two results, the second of which is
the last stored chunk fetched through the Python negative index -1, so the
result is longer than the corpus and contains a chunk from a padding
index; the guard idx < len(chunks) fails to exclude negative padding
indices. -/
theorem c2_retrieve_padding_bug :
    faissSearchOutput 1 2 [(5, 0), (-1000, -1)] = true
      ∧ (retrieve stOneChunk "chest pain" 2 true [(5, 0), (-1000, -1)]).1
          = [setScore chunk0 5, setScore chunk0 (-1000)]
      ∧ (retrieve stOneChunk "chest pain" 2 true [(5, 0), (-1000, -1)]).1.length = 2
      ∧ stOneChunk.chunks.length = 1 :=
  ⟨by decide, rfl, rfl, rfl⟩

set_option maxRecDepth 100000

/-- C5 (amended): every extracted chunk has non-empty text; the physical-
exam and clinical-reasoning scenario chunks, and the note-pattern, task-
tier and code-list response chunks, are omitted when their source fields
are absent; but the scenario overview and HPI chunks are emitted
unconditionally, even when their source fields are absent. -/
theorem c5_chunk_emission (s : Scenario) (rk : String) (r : ResponseRecord) :
    ((extract_scenario_chunks s).all (fun c => !(c.text == ""))) = true
    ∧ ((extract_response_chunks rk r).all (fun c => !(c.text == ""))) = true
    ∧ ((extract_scenario_chunks s).map (fun c => c.type)
        = ["scenario_overview", "hpi_pattern"]
          ++ (if s.form_data.physical_exam.isSome then ["physical_exam_pattern"] else [])
          ++ (if s.form_data.doctor_notes ≠ "" then ["clinical_reasoning"] else []))
    ∧ ((extract_response_chunks rk r).map (fun c => c.type)
        = (if r.clinical_note ≠ "" then ["clinical_note_pattern"] else [])
          ++ (r.differential_diagnoses.map (fun _ => "differential_diagnosis"))
          ++ (if !r.tasks.immediate_tasks.isEmpty then ["task_pattern"] else [])
          ++ (if !r.tasks.urgent_tasks.isEmpty then ["task_pattern"] else [])
          ++ (if !r.tasks.routine_tasks.isEmpty then ["task_pattern"] else [])
          ++ (if !r.icd10_codes.isEmpty then ["icd_codes"] else [])) := by
  refine ⟨?_, ?_, ?_, ?_⟩
  · apply List.all_eq_true.mpr
    intro c hc
    simpa using extract_scenario_text_ne s c hc
  · apply List.all_eq_true.mpr
    intro c hc
    simpa using extract_response_text_ne rk r c hc
  · cases hpe : s.form_data.physical_exam <;>
      by_cases hdn : s.form_data.doctor_notes = "" <;>
      simp [extract_scenario_chunks, hpe, hdn]
  · by_cases hcn : r.clinical_note = "" <;>
      cases hti : r.tasks.immediate_tasks <;>
      cases htu : r.tasks.urgent_tasks <;>
      cases htr : r.tasks.routine_tasks <;>
      cases hic : r.icd10_codes <;>
      simp [extract_response_chunks, tier_chunks, hcn, hti, htu, htr, hic, List.map_map,
        Function.comp_def, dx_chunk_type, List.map_const', List.enum_length]

/-- C5 counterexample: on a scenario record with every source field absent,
extraction still emits the overview and HPI chunks, so a chunk whose
source fields are absent is not omitted; the emitted overview text is the
bare label scaffold. -/
theorem c5_unconditional_overview_counterexample :
    scenarioEmpty.form_data.chief_complaint = none
      ∧ scenarioEmpty.name = ""
      ∧ (extract_scenario_chunks scenarioEmpty).map (fun c => c.type)
          = ["scenario_overview", "hpi_pattern"]
      ∧ (extract_scenario_chunks scenarioEmpty).head?.map (fun c => c.text)
          = some "Clinical Scenario: \nDescription: \nChief Complaint: \nAssociated Symptoms:" :=
  ⟨rfl, rfl, rfl, rfl⟩

/-- C6 counterexample: when the knowledge source is unreadable at
initialization, the constructor re-raises the error instead of constructing
an engine in a degraded state. -/
theorem c6_unreadable_source_counterexample :
    clinicalRAG_init (Except.error "knowledge source unreadable") true false true
      = Except.error "knowledge source unreadable" := rfl

/-- C6 (amended): an unreadable knowledge source makes initialization
raise; the usable degraded state (retrieve returns the empty sequence and
generate_analysis still returns a well-formed result through the fallback
or minimal path) is reached instead when the source is readable but the
index build fails. -/
theorem c6_degraded_state_amended :
    (∀ (e : String) (fa ch eo : Bool),
        clinicalRAG_init (Except.error e) fa ch eo = Except.error e)
    ∧ (∀ kb : KnowledgeBase, clinicalRAG_init (.ok kb) true false false = .ok (st_noindex kb))
    ∧ (∀ (kb : KnowledgeBase) (q : String) (k : Nat) (eo : Bool) (so : List (Int × Int)),
        (retrieve (st_noindex kb) q k eo so).1 = [])
    ∧ (∀ (kb : KnowledgeBase) (form : FormDataRec) (pc : PatientContext) (eo : Bool)
        (so : List (Int × Int)) (gen : String → String → Option Json),
        jsonHasTopKeys (generate_analysis form pc (st_noindex kb) eo so gen) = true
          ∧ generate_analysis form pc (st_noindex kb) eo so (fun _ _ => none)
              = minimal_result form) := by
  refine ⟨fun e fa ch eo => rfl, fun kb => rfl, ?_, ?_⟩
  · intro kb q k eo so
    exact retrieve_index_none (st_noindex kb) q k eo so rfl
  · intro kb form pc eo so gen
    exact ⟨genAnalysis_topKeys form pc (st_noindex kb) eo so gen,
      genAnalysis_both_fail form pc (st_noindex kb) eo so⟩

/-- C1 (amended): for every well-formed form data and patient context, and
every behavior of the generation oracle, generate_analysis returns without
raising and its result always carries the four top-level components
(missing keys are defaulted); when both generation calls fail it returns
the minimal result, which echoes the chief complaint into the subjective
field and is fully structurally valid.  Fields supplied by the model with
an unexpected type are passed through unchanged, so full structural
validity is not guaranteed for arbitrary model output. -/
theorem c1_generate_analysis_structure (form : FormDataRec) (pc : PatientContext)
    (st : EngineState) (eo : Bool) (so : List (Int × Int))
    (gen : String → String → Option Json) :
    jsonHasTopKeys (generate_analysis form pc st eo so gen) = true
      ∧ generate_analysis form pc st eo so (fun _ _ => none) = minimal_result form
      ∧ isFullAnalysis (minimal_result form) = true :=
  ⟨genAnalysis_topKeys form pc st eo so gen, genAnalysis_both_fail form pc st eo so, rfl⟩

/-- C1 counterexample: a generation behavior that returns a parsable JSON
object whose icd10_codes field is a number makes generate_analysis return a
result that is not structurally valid (its icd10_codes component is not a
list), refuting the claim that the result is structurally valid for every
behavior of the generation capability. -/
theorem c1_structural_validity_counterexample :
    isFullAnalysis (generate_analysis formChest pcAllergy stNoIndex true []
        (fun _ _ => some badGenOut)) = false
      ∧ (match generate_analysis formChest pcAllergy stNoIndex true []
            (fun _ _ => some badGenOut) with
          | .obj fs => objGet fs "icd10_codes"
          | _ => none) = some (.num 5) :=
  ⟨rfl, rfl⟩

/-- C3 (amended): when the patient has a non-empty allergies list, both
the grounded and the fallback user prompts surface the allergies with the
highlighted allergy marker, and each system prompt contains its own
instruction to check patient allergies before recommending medications;
the shared fragment of that instruction is verbatim in both variants, but
the full instruction sentences differ between the variants. -/
theorem c3_allergy_marker_and_instructions (form : FormDataRec) (pc : PatientContext)
    (context : String) (h : pc.allergies.getD [] ≠ []) :
    strOccurs (grounded_user_prompt form pc context) "⚠️ ALLERGIES:" = true
      ∧ strOccurs (fallback_user_prompt form pc) "⚠️ ALLERGIES:" = true
      ∧ strOccurs grounded_system_prompt grounded_allergy_instruction = true
      ∧ strOccurs fallback_system_prompt fallback_allergy_instruction = true
      ∧ strOccurs grounded_system_prompt "check patient allergies before recommending" = true
      ∧ strOccurs fallback_system_prompt "check patient allergies before recommending" = true := by
  refine ⟨?_, ?_, ?_, ?_, by decide, by decide⟩
  · exact strOccurs_grounded_user_of_patient form pc context _
      (marker_in_patient_summary pc h)
  · exact strOccurs_fallback_user_of_patient form pc _
      (marker_in_patient_summary pc h)
  · unfold grounded_system_prompt
    apply strOccurs_append_right
    exact strOccurs_append_left _ _ _ (occursInB_self _)
  · unfold fallback_system_prompt
    apply strOccurs_append_right
    exact strOccurs_append_left _ _ _ (occursInB_self _)

/-- Witness for c3_allergy_marker_and_instructions at the penicillin test
patient. -/
theorem c3_allergy_marker_witness :
    pcAllergy.allergies.getD [] ≠ []
      ∧ strOccurs (grounded_user_prompt formChest pcAllergy
            "No relevant clinical patterns found.") "⚠️ ALLERGIES:" = true
      ∧ strOccurs (fallback_user_prompt formChest pcAllergy) "⚠️ ALLERGIES:" = true := by
  refine ⟨by decide, ?_, ?_⟩
  · exact (c3_allergy_marker_and_instructions formChest pcAllergy
      "No relevant clinical patterns found." (by decide)).1
  · exact (c3_allergy_marker_and_instructions formChest pcAllergy
      "No relevant clinical patterns found." (by decide)).2.1

/-- C3 counterexample: the grounded allergy instruction is not a substring
of the fallback prompt, and the fallback allergy instruction is not a
substring of the grounded prompt, so the instruction is not present
character-identically in every prompt variant. -/
theorem c3_verbatim_instruction_counterexample :
    strOccurs (fallback_system_prompt ++ fallback_user_prompt formChest pcAllergy)
        grounded_allergy_instruction = false
      ∧ strOccurs (grounded_system_prompt
            ++ grounded_user_prompt formChest pcAllergy "No relevant clinical patterns found.")
          fallback_allergy_instruction = false :=
  ⟨by decide, by decide⟩

/-- C8 (amended): only chief complaint, past medical history, current
medications and allergies render explicit markers in the prompt when
absent (Not specified, None documented, None, NKDA); the other optional
fields, gender among them, are omitted from the prompt entirely when
absent, with no marker distinguishing absence. -/
theorem c8_marker_rendering (pc : PatientContext) (form : FormDataRec) (context : String) :
    (pc.medical_history = [] →
      strOccurs (grounded_user_prompt form pc context)
        "Past Medical History: None documented" = true)
    ∧ (pc.medications = [] →
      strOccurs (grounded_user_prompt form pc context) "Current Medications: None" = true)
    ∧ (pc.allergies.getD [] = [] →
      strOccurs (grounded_user_prompt form pc context)
        "Allergies: NKDA (No Known Drug Allergies)" = true)
    ∧ (form.chief_complaint = none →
      strOccurs (grounded_user_prompt form pc context) "Chief Complaint: Not specified" = true)
    ∧ (pc.gender = none →
      ∀ part ∈ patientSummaryParts pc, ("Gender".data.isPrefixOf part.data) = false) := by
  refine ⟨?_, ?_, ?_, ?_, fun h => gender_not_prefix pc h⟩
  · intro h
    apply strOccurs_grounded_user_of_patient
    unfold build_patient_summary
    exact strOccurs_of_mem_joinSep _ _ _ (pmhx_marker_mem pc h) _ (occursInB_self _)
  · intro h
    apply strOccurs_grounded_user_of_patient
    unfold build_patient_summary
    exact strOccurs_of_mem_joinSep _ _ _ (meds_marker_mem pc h) _ (occursInB_self _)
  · intro h
    apply strOccurs_grounded_user_of_patient
    unfold build_patient_summary
    exact strOccurs_of_mem_joinSep _ _ _ (nkda_marker_mem pc h) _ (occursInB_self _)
  · intro h
    apply strOccurs_grounded_user_of_form
    unfold build_form_summary
    apply strOccurs_of_mem_joinSep _ _ _ (cc_marker_mem form h) _
    rw [h]
    decide

/-- Witness for c8_marker_rendering on an empty patient context and form. -/
theorem c8_marker_rendering_witness :
    pcEmpty.medical_history = [] ∧ pcEmpty.gender = none ∧ formEmpty.chief_complaint = none
      ∧ strOccurs (grounded_user_prompt formEmpty pcEmpty "ctx")
          "Past Medical History: None documented" = true
      ∧ strOccurs (grounded_user_prompt formEmpty pcEmpty "ctx")
          "Chief Complaint: Not specified" = true
      ∧ ("Gender".data.isPrefixOf "Past Medical History: None documented".data) = false := by
  have h := c8_marker_rendering pcEmpty formEmpty "ctx"
  exact ⟨rfl, rfl, rfl, h.1 rfl, h.2.2.2.1 rfl,
    h.2.2.2.2 rfl "Past Medical History: None documented" (pmhx_marker_mem pcEmpty rfl)⟩

/-- C8 counterexample: on a patient context with every optional field
absent, the summary consists only of the three marker lines; the absent
gender field is omitted entirely, with no marker of any kind, so absent
fields do not always render as explicit markers. -/
theorem c8_marker_omission_counterexample :
    pcEmpty.gender = none
      ∧ build_patient_summary pcEmpty
          = "Past Medical History: None documented\nCurrent Medications: None\nAllergies: NKDA (No Known Drug Allergies)"
      ∧ strOccurs (build_patient_summary pcEmpty) "Gender" = false
      ∧ strOccurs (build_patient_summary pcEmpty) "not specified" = false :=
  ⟨rfl, rfl, by decide, by decide⟩
